import Mathlib

/-!
Verification development for the `micro-temp` repository structured-logging
subsystem (`internal/pkg/logger`).  The Go source is shallowly embedded:
pure functions become Lean functions on `Int` / `String` / `List`; the
process-wide mutable state of the global-logger registry becomes explicit
state passing; the zap engine is modelled by the threshold/context data the
logger code actually manipulates.  Machine integers (`int8` levels, `int`
thresholds and millisecond counts) stay well inside their ranges in every
code path modelled here, so they are embedded as `Int` without wrap-around.
-/

namespace MicroTemp

/-! ## Fields and records (zap.Field / emitted log records)

`zap.Field` is a key plus a typed value.  The logger code builds fields with
`zap.String`, `zap.Int64`, `zap.Bool`, `zap.Duration`, `zap.Time`,
`zap.Error` and `zap.Any`; the embedding keeps one constructor per kind that
the modelled code paths produce. -/

inductive FieldVal where
  | str (s : String)
  | int (n : Int)
  | bool (b : Bool)
  | dur (ms : Int)
  | time (t : Int)
  | err (e : String)
  | anyMap (m : List (String × String))
deriving DecidableEq

structure Field where
  key : String
  val : FieldVal
deriving DecidableEq

/-- One emitted log record: zap level (as `Int`, Debug = -1 … Fatal = 5),
message, and the final field list (logger context fields ++ call fields). -/
structure Record where
  level : Int
  msg : String
  fields : List Field
deriving DecidableEq

/-! ## Level (types.go)

Go `Level` is an `int8` enum: Debug = -1, Info = 0, Warn = 1, Error = 2,
Fatal = 3; embedded as `Int`. -/

/-- Model of `Level.String` (types.go lines 56-71): the `switch` over the five defined
levels, `"unknown"` otherwise. -/
def LevelString (l : Int) : String :=
  if l = -1 then "debug"
  else if l = 0 then "info"
  else if l = 1 then "warn"
  else if l = 2 then "error"
  else if l = 3 then "fatal"
  else "unknown"

/-- Model of `ParseLevel` (types.go lines 74-89): the `switch` over the five level
names, defaulting to `InfoLevel` (0). -/
def ParseLevel (s : String) : Int :=
  if s = "debug" then -1
  else if s = "info" then 0
  else if s = "warn" then 1
  else if s = "error" then 2
  else if s = "fatal" then 3
  else 0

/-- Model of `levelToZapLevel` (tracing.go core-logger part): maps our level to the
zapcore level (zapcore.FatalLevel = 5), defaulting to Info. -/
def levelToZapLevel (l : Int) : Int :=
  if l = -1 then -1
  else if l = 0 then 0
  else if l = 1 then 1
  else if l = 2 then 2
  else if l = 3 then 5
  else 0

/-! ## Sensitive-field sanitizer (types.go sanitizer part)

`strings.ToLower` on the ASCII field keys considered here; the eight
`(?i)word` regular expressions of `sensitiveFieldPatterns` are
case-insensitive substring tests, which on a lowercased key are plain
substring tests for the lowercase words. -/

def toLowerAscii (s : String) : String :=
  String.mk (s.data.map Char.toLower)

/-- Does `needle` occur at the start of `hay`? -/
def startsWithChars : List Char → List Char → Bool
  | [], _ => true
  | _ :: _, [] => false
  | n :: ns, h :: hs => n = h && startsWithChars ns hs

/-- Does `needle` occur anywhere inside `hay`? -/
def containsSubstr (needle : List Char) : List Char → Bool
  | [] => startsWithChars needle []
  | h :: hs => startsWithChars needle (h :: hs) || containsSubstr needle hs

/-- The eight lowercase words of `sensitiveFieldPatterns` (types.go
lines 167-176), each wrapped in `(?i)` in the source. -/
def sensitiveFieldWords : List String :=
  ["password", "passwd", "secret", "token", "key", "auth", "credential", "session"]

/-- Model of `isSensitiveField` (types.go lines 230-246).  The process-wide
`customSensitiveFields` map (whose keys `AddSensitiveField` stores
lowercased) is passed explicitly as the list of its keys. -/
def isSensitiveField (custom : List String) (key : String) : Bool :=
  let lowerKey := toLowerAscii key
  custom.contains lowerKey ||
    sensitiveFieldWords.any (fun w => containsSubstr w.data lowerKey.data)

/-- Model of `SanitizeFields` (types.go lines 209-227): the loop that replaces the
value of each sensitive-keyed field with `zap.String(key, "[REDACTED]")` and
passes every other field through. -/
def SanitizeFields (custom : List String) : List Field → List Field
  | [] => []
  | f :: rest =>
    if isSensitiveField custom f.key then
      ⟨f.key, FieldVal.str "[REDACTED]"⟩ :: SanitizeFields custom rest
    else
      f :: SanitizeFields custom rest

/-! ## Value scrubber `sanitizeString` (types.go lines 259-285)

`sanitizeString` applies five `regexp.ReplaceAllString` passes in order.
The Go `regexp` package has Perl leftmost-first semantics: the replacer scans
the input left to right, at each position tries the pattern (greedy
quantifiers prefer longer, backtracking on failure), replaces the leftmost
match, and resumes scanning the *original* text right after the match.
`\b` is the ASCII word boundary (`\w` = `[0-9A-Za-z_]`), `\s` is
`[\t\n\f\r ]`.  Each concrete pattern below has disjoint character classes
at its choice points except the trailing `{24,}` / `{2,}` repetitions, so
each is embedded as a deterministic matcher, with explicit backtracking
(largest repetition count first) exactly where the pattern needs it. -/

def isWordChar (c : Char) : Bool :=
  c.isAlphanum || c = '_'

def isSpaceGo (c : Char) : Bool :=
  c = ' ' || c = '\t' || c = '\n' || c = '\x0c' || c = '\r'

def isDigitC (c : Char) : Bool := c.isDigit

/-- A matcher receives "is the previous char a word char" plus the remaining
text and returns the match length (≥ 1) and replacement text, or `none`. -/
def Matcher : Type := Bool → List Char → Option (Nat × List Char)

/-- First `n` chars all satisfying `p`, split off. -/
def takeExact (p : Char → Bool) : Nat → List Char → Option (List Char × List Char)
  | 0, s => some ([], s)
  | _ + 1, [] => none
  | n + 1, c :: rest =>
    if p c then
      match takeExact p n rest with
      | some (pre, post) => some (c :: pre, post)
      | none => none
    else none

/-- Model of `[-\s]?` between digit groups: the separator class is disjoint from
`\d`, so greedily consuming a present separator is the unique viable
alternative. -/
def skipSep : List Char → List Char
  | [] => []
  | c :: rest => if c = '-' || isSpaceGo c then rest else c :: rest

/-- Model of `\b` after a match whose last char is a word char: next char must be
absent or a non-word char. -/
def boundaryNext : List Char → Bool
  | [] => true
  | d :: _ => !isWordChar d

/-- Credit-card pass:
`\b(\d{4})[-\s]?\d{4}[-\s]?\d{4}[-\s]?(\d{4})\b` → `$1-****-****-$2`. -/
def ccMatch : Matcher := fun prevW s =>
  if prevW then none else
  match takeExact isDigitC 4 s with
  | none => none
  | some (g1, r1) =>
    match takeExact isDigitC 4 (skipSep r1) with
    | none => none
    | some (_, r2) =>
      match takeExact isDigitC 4 (skipSep r2) with
      | none => none
      | some (_, r3) =>
        match takeExact isDigitC 4 (skipSep r3) with
        | none => none
        | some (g4, r4) =>
          if boundaryNext r4 then
            some (s.length - r4.length, g1 ++ "-****-****-".data ++ g4)
          else none

def elevenStars : List Char := "***********".data

/-- National-id pass (17 digits): `\b(\d{3})\d{12}(\d{2})\b` →
`$1***********$2`. -/
def id17Match : Matcher := fun prevW s =>
  if prevW then none else
  match takeExact isDigitC 17 s with
  | none => none
  | some (g, r) =>
    if boundaryNext r then
      some (17, g.take 3 ++ elevenStars ++ g.drop 15)
    else none

/-- National-id pass (15 digits + check char):
`\b(\d{3})\d{11}(\d[\dXx])\b` → `$1***********$2`. -/
def id16Match : Matcher := fun prevW s =>
  if prevW then none else
  match takeExact isDigitC 15 s with
  | none => none
  | some (g, r) =>
    match r with
    | [] => none
    | c :: r2 =>
      if isDigitC c || c = 'X' || c = 'x' then
        if boundaryNext r2 then
          some (16, g.take 3 ++ elevenStars ++ g.drop 14 ++ [c])
        else none
      else none

/-- Phone pass: `\b(1[3-9]\d)(\d{4})(\d{4})\b` → `$1****$3`. -/
def phoneMatch : Matcher := fun prevW s =>
  if prevW then none else
  match s with
  | c0 :: c1 :: rest2 =>
    if c0 = '1' && ('3' ≤ c1 && c1 ≤ '9') then
      match takeExact isDigitC 9 rest2 with
      | none => none
      | some (g9, r) =>
        if boundaryNext r then
          some (11, [c0, c1] ++ g9.take 1 ++ "****".data ++ g9.drop 5)
        else none
    else none
  | _ => none

/-- Model of `[A-Za-z0-9_-]` of the token pattern (contains the non-word `-`). -/
def tokenClass (c : Char) : Bool :=
  c.isAlphanum || c = '_' || c = '-'

/-- Greedy `{24,}` tail of the token pattern followed by `\b`: pick the
largest count `j ≥ 24` such that a word boundary follows the `j`-th class
char (Perl greedy repetition backtracks from the longest). -/
def tokenPick (run after : List Char) : Nat → Option Nat
  | 0 => none
  | j + 1 =>
    if j + 1 < 24 then none
    else
      let lastC := run.getD j ' '
      let nextW :=
        match run.drop (j + 1) with
        | d :: _ => isWordChar d
        | [] =>
          match after with
          | d :: _ => isWordChar d
          | [] => false
      if isWordChar lastC != nextW then some (j + 1) else tokenPick run after j

/-- JWT/API-key pass: `\b([A-Za-z0-9_-]{8})[A-Za-z0-9_-]{24,}\b` →
`$1****`. -/
def tokenMatch : Matcher := fun prevW s =>
  match s with
  | [] => none
  | c0 :: _ =>
    if !tokenClass c0 then none
    else if prevW = isWordChar c0 then none
    else
      match takeExact tokenClass 8 s with
      | none => none
      | some (g1, r1) =>
        let run := r1.takeWhile tokenClass
        let after := r1.drop run.length
        match tokenPick run after run.length with
        | some j => some (8 + j, g1 ++ "****".data)
        | none => none

/-- Local-part class `[A-Za-z0-9._%+-]` of the email pattern. -/
def emailLocalClass (c : Char) : Bool :=
  c.isAlphanum || c = '.' || c = '_' || c = '%' || c = '+' || c = '-'

/-- Domain class `[A-Za-z0-9.-]`. -/
def emailDomClass (c : Char) : Bool :=
  c.isAlphanum || c = '.' || c = '-'

/-- Top-level-domain class `[A-Z|a-z]` (the source class contains a literal
`|`). -/
def emailTldClass (c : Char) : Bool :=
  c.isAlpha || c = '|'

/-- Greedy `{2,}` TLD run followed by `\b`: largest count `u ≥ 2` with a
word boundary after it. -/
def emailPickUGo (tail : List Char) : Nat → Option Nat
  | 0 => none
  | u + 1 =>
    if u + 1 < 2 then none
    else
      let lastC := tail.getD u ' '
      let nextW :=
        match tail.drop (u + 1) with
        | d :: _ => isWordChar d
        | [] => false
      if isWordChar lastC != nextW then some (u + 1) else emailPickUGo tail u

def emailPickU (tail : List Char) : Option Nat :=
  emailPickUGo tail (tail.takeWhile emailTldClass).length

/-- Greedy `[A-Za-z0-9.-]+\.` split of the domain: the `+` prefers the
longest run `r` whose next char is the literal dot (`.` itself is in the
class, so candidates are exactly positions of dots inside the run),
backtracking to shorter runs if the TLD part fails. -/
def emailPickR (r2 : List Char) : Nat → Option (Nat × Nat)
  | 0 => none
  | r + 1 =>
    if r2.getD (r + 1) ' ' = '.' then
      match emailPickU (r2.drop (r + 2)) with
      | some u => some (r + 1, u)
      | none => emailPickR r2 r
    else emailPickR r2 r

/-- Email pass:
`\b([A-Za-z0-9._%+-]{1,2})[A-Za-z0-9._%+-]*(@[A-Za-z0-9.-]+\.[A-Z|a-z]{2,})\b`
→ `$1****$2`.  `@` is outside the local class, so the greedy `{1,2}` plus
`*` always consume the whole local run (the `{1,2}` group keeping its
preferred two chars when available). -/
def emailMatch : Matcher := fun prevW s =>
  match s with
  | [] => none
  | c0 :: _ =>
    if !emailLocalClass c0 then none
    else if prevW = isWordChar c0 then none
    else
      let run := s.takeWhile emailLocalClass
      let n := run.length
      match s.drop n with
      | '@' :: r2 =>
        let p := (r2.takeWhile emailDomClass).length
        match emailPickR r2 (p - 1) with
        | some (r, u) =>
          some (n + 1 + r + 1 + u,
            run.take (min 2 n) ++ "****".data ++ ('@' :: r2.take (r + 1 + u)))
        | none => none
      | _ => none

/-- One `ReplaceAllString` pass: scan left to right, replace each leftmost
match, resume right after it in the original text, tracking whether the char
before the current position (in the original text) is a word char.  The
fuel argument (initially the text length) only bounds the recursion; every
step consumes at least one char, so it is never exhausted. -/
def goScan (m : Matcher) : Nat → Bool → List Char → List Char
  | 0, _, s => s
  | _ + 1, _, [] => []
  | fuel + 1, prevW, c :: rest =>
    match m prevW (c :: rest) with
    | some (k, repl) =>
      if 1 ≤ k then
        repl ++ goScan m fuel (isWordChar (((c :: rest).take k).getLastD c))
          ((c :: rest).drop k)
      else c :: goScan m fuel (isWordChar c) rest
    | none => c :: goScan m fuel (isWordChar c) rest

def goReplaceAll (m : Matcher) (s : List Char) : List Char :=
  goScan m s.length false s

/-- Does a pattern match anywhere in the text (same scan as `goScan`)? -/
def hasMatchGo (m : Matcher) : Bool → List Char → Bool
  | _, [] => false
  | prevW, c :: rest => (m prevW (c :: rest)).isSome || hasMatchGo m (isWordChar c) rest

/-- The five replacement passes of `sanitizeString`, in source order on the
character list. -/
def sanitizeChars (s : List Char) : List Char :=
  goReplaceAll tokenMatch
    (goReplaceAll phoneMatch
      (goReplaceAll emailMatch
        (goReplaceAll id16Match
          (goReplaceAll id17Match
            (goReplaceAll ccMatch s)))))

/-- Model of `sanitizeString` (types.go lines 259-285). -/
def sanitizeString (s : String) : String :=
  String.mk (sanitizeChars s.data)

/-- Does any of the five replacement patterns match somewhere in `s`?  When
this is `false`, every pass leaves `s` unchanged. -/
def sanitizeApplicable (s : String) : Bool :=
  hasMatchGo ccMatch false s.data || hasMatchGo id17Match false s.data ||
  hasMatchGo id16Match false s.data || hasMatchGo emailMatch false s.data ||
  hasMatchGo phoneMatch false s.data || hasMatchGo tokenMatch false s.data

/-! ## Ambient context (context.Context) and field extraction

`context.Context` is read through string-keyed `ctx.Value` lookups that are
type-asserted to `string`, plus the OpenTelemetry span for trace fields.
The embedding carries exactly those two capabilities. -/

/-- A value stored in the context: `ctx.Value` returns `any`; the logger
only uses values that type-assert to `string`. -/
inductive GoVal where
  | str (s : String)
  | nonStr
deriving DecidableEq

/-- OpenTelemetry span context data read by `ExtractTraceFields`. -/
structure SpanM where
  valid : Bool
  hasTraceId : Bool
  traceId : String
  hasSpanId : Bool
  spanId : String
  sampled : Bool
deriving DecidableEq

structure CtxM where
  vals : List (String × GoVal)
  span : Option SpanM

def ctxLookup (ctx : CtxM) (k : String) : Option GoVal :=
  (ctx.vals.find? (fun kv => kv.1 = k)).map (fun kv => kv.2)

/-- Model of `getRequestIDFromContext` (core-logger part of tracing.go). -/
def getRequestIDFromContext (ctx : CtxM) : String :=
  match ctxLookup ctx "request_id" with
  | some (GoVal.str s) => s
  | _ => ""

/-- Model of `getUserIDFromContext`. -/
def getUserIDFromContext (ctx : CtxM) : String :=
  match ctxLookup ctx "user_id" with
  | some (GoVal.str s) => s
  | _ => ""

/-- Model of `extractContextFields` (core logger): request id then user id, each only
when non-empty. -/
def extractContextFields (ctx : CtxM) : List Field :=
  (if getRequestIDFromContext ctx = "" then []
   else [⟨"request_id", FieldVal.str (getRequestIDFromContext ctx)⟩]) ++
  (if getUserIDFromContext ctx = "" then []
   else [⟨"user_id", FieldVal.str (getUserIDFromContext ctx)⟩])

/-- Model of `getContextValue` (tracing.go lines 106-115): first key whose context
value is a non-empty string. -/
def getContextValue (ctx : CtxM) : List String → String
  | [] => ""
  | k :: ks =>
    match ctxLookup ctx k with
    | some (GoVal.str s) => if s = "" then getContextValue ctx ks else s
    | _ => getContextValue ctx ks

/-- Model of `extractBusinessContextFields` (tracing.go lines 69-103). -/
def extractBusinessContextFields (ctx : CtxM) : List Field :=
  (if getContextValue ctx ["request_id", "requestID", "x-request-id"] = "" then []
   else [⟨"request_id", FieldVal.str (getContextValue ctx ["request_id", "requestID", "x-request-id"])⟩]) ++
  (if getContextValue ctx ["user_id", "userID", "user"] = "" then []
   else [⟨"user_id", FieldVal.str (getContextValue ctx ["user_id", "userID", "user"])⟩]) ++
  (if getContextValue ctx ["session_id", "sessionID", "session"] = "" then []
   else [⟨"session_id", FieldVal.str (getContextValue ctx ["session_id", "sessionID", "session"])⟩]) ++
  (if getContextValue ctx ["tenant_id", "tenantID", "tenant"] = "" then []
   else [⟨"tenant_id", FieldVal.str (getContextValue ctx ["tenant_id", "tenantID", "tenant"])⟩]) ++
  (if getContextValue ctx ["client_ip", "clientIP", "ip", "remote_addr"] = "" then []
   else [⟨"client_ip", FieldVal.str (getContextValue ctx ["client_ip", "clientIP", "ip", "remote_addr"])⟩]) ++
  (if getContextValue ctx ["user_agent", "userAgent", "User-Agent"] = "" then []
   else [⟨"user_agent", FieldVal.str (getContextValue ctx ["user_agent", "userAgent", "User-Agent"])⟩])

/-- Model of `TracingExtractor.ExtractTraceFields` (tracing.go lines 22-51). -/
def extractTraceFields (enabled : Bool) (ctx : CtxM) : List Field :=
  if !enabled then []
  else
    match ctx.span with
    | none => []
    | some sp =>
      if sp.valid then
        (if sp.hasTraceId then [⟨"trace_id", FieldVal.str sp.traceId⟩] else []) ++
        (if sp.hasSpanId then [⟨"span_id", FieldVal.str sp.spanId⟩] else []) ++
        (if sp.sampled then [⟨"trace_sampled", FieldVal.bool true⟩] else [])
      else []

/-- Model of `TracingExtractor.ExtractAllContextFields` (tracing.go lines 54-66). -/
def extractAllContextFields (enabled : Bool) (ctx : CtxM) : List Field :=
  extractTraceFields enabled ctx ++ extractBusinessContextFields ctx

/-! ## zap engine and the core logger `zapLogger` (tracing.go core part)

`zap.Logger` is modelled by the two pieces of data the logger code
manipulates: the effective core threshold (records are written iff their
level is at or above it) and the context fields accumulated by `With`.
`zap.IncreaseLevel(lvl)` wraps the core so that records must pass both the
old core and `lvl` — effective threshold `max old lvl`; an attempt to
*lower* the level makes `zapcore.NewIncreaseLevelCore` return an error,
which `zap.IncreaseLevel` reports to the error output and leaves the core
unchanged — again `max old lvl`. -/

structure ZapEngine where
  threshold : Int
  ctxFields : List Field
deriving DecidableEq

def ZapEngine.withF (e : ZapEngine) (fs : List Field) : ZapEngine :=
  { e with ctxFields := e.ctxFields ++ fs }

def ZapEngine.increaseLevel (e : ZapEngine) (lvl : Int) : ZapEngine :=
  { e with threshold := max e.threshold lvl }

/-- Write a record at `lvl`: emitted iff `lvl` is at or above the core
threshold; the record carries the engine context fields before the call
fields. -/
def ZapEngine.log (e : ZapEngine) (lvl : Int) (msg : String) (fs : List Field) :
    Option Record :=
  if e.threshold ≤ lvl then some ⟨lvl, msg, e.ctxFields ++ fs⟩ else none

/-- Base fields from service identity (`NewLogger` / `CreateLoggerWithOutputs`):
service, version, environment, each only when non-empty. -/
structure ServiceIdent where
  serviceName : String
  version : String
  environment : String
deriving DecidableEq

def baseFieldsOf (c : ServiceIdent) : List Field :=
  (if c.serviceName = "" then [] else [⟨"service", FieldVal.str c.serviceName⟩]) ++
  (if c.version = "" then [] else [⟨"version", FieldVal.str c.version⟩]) ++
  (if c.environment = "" then [] else [⟨"environment", FieldVal.str c.environment⟩])

/-- The `zapLogger` struct (zap engine handle, stored level, service name,
base fields). -/
structure ZapLoggerM where
  engine : ZapEngine
  level : Int
  service : String
  baseFields : List Field
deriving DecidableEq

/-- Model of `NewLogger` (success path): engine at `levelToZapLevel config.Level`
with the base fields attached via `With`. -/
def newLoggerModel (level : Int) (ident : ServiceIdent) : ZapLoggerM :=
  { engine := { threshold := levelToZapLevel level, ctxFields := baseFieldsOf ident }
    level := level
    service := ident.serviceName
    baseFields := baseFieldsOf ident }

/-- Model of `enhanceFields`: the sanitization hook point, currently pass-through. -/
def enhanceFields (fs : List Field) : List Field := fs

def zapLoggerDebug (l : ZapLoggerM) (msg : String) (fs : List Field) : Option Record :=
  l.engine.log (-1) msg (enhanceFields fs)

def zapLoggerInfo (l : ZapLoggerM) (msg : String) (fs : List Field) : Option Record :=
  l.engine.log 0 msg (enhanceFields fs)

def zapLoggerWarn (l : ZapLoggerM) (msg : String) (fs : List Field) : Option Record :=
  l.engine.log 1 msg (enhanceFields fs)

/-- Model of `zapLogger.Error`: appends the captured stack trace (a runtime artifact,
passed in as `stk`) before emitting. -/
def zapLoggerError (l : ZapLoggerM) (stk : String) (msg : String) (fs : List Field) :
    Option Record :=
  l.engine.log 2 msg (enhanceFields (fs ++ [⟨"stack_trace", FieldVal.str stk⟩]))

def zapLoggerDebugContext (l : ZapLoggerM) (ctx : CtxM) (msg : String)
    (fs : List Field) : Option Record :=
  zapLoggerDebug l msg (extractContextFields ctx ++ fs)

def zapLoggerInfoContext (l : ZapLoggerM) (ctx : CtxM) (msg : String)
    (fs : List Field) : Option Record :=
  zapLoggerInfo l msg (extractContextFields ctx ++ fs)

def zapLoggerWarnContext (l : ZapLoggerM) (ctx : CtxM) (msg : String)
    (fs : List Field) : Option Record :=
  zapLoggerWarn l msg (extractContextFields ctx ++ fs)

def zapLoggerErrorContext (l : ZapLoggerM) (stk : String) (ctx : CtxM) (msg : String)
    (fs : List Field) : Option Record :=
  zapLoggerError l stk msg (extractContextFields ctx ++ fs)

def zapLoggerWithFields (l : ZapLoggerM) (fs : List Field) : ZapLoggerM :=
  { l with engine := l.engine.withF fs }

def zapLoggerWithContext (l : ZapLoggerM) (ctx : CtxM) : ZapLoggerM :=
  zapLoggerWithFields l (extractContextFields ctx)

def zapLoggerWithService (l : ZapLoggerM) (service : String) : ZapLoggerM :=
  { l with engine := l.engine.withF [⟨"service", FieldVal.str service⟩], service := service }

/-- Model of `zapLogger.SetLevel` (tracing.go lines 542-547): stores the new level
and applies `zap.IncreaseLevel(levelToZapLevel level)` to the engine. -/
def zapLoggerSetLevel (l : ZapLoggerM) (lvl : Int) : ZapLoggerM :=
  { l with level := lvl, engine := l.engine.increaseLevel (levelToZapLevel lvl) }

/-! ## Multi-output wrapper `zapLoggerInternal` (output.go lines 182-274)

Same data as `zapLogger`; its `*Context` methods discard the context and
delegate to the non-context methods, and its `SetLevel` stores the level
without touching the engine. -/

structure ZapInternalM where
  engine : ZapEngine
  level : Int
  service : String
  baseFields : List Field
deriving DecidableEq

def internalInfo (l : ZapInternalM) (msg : String) (fs : List Field) : Option Record :=
  l.engine.log 0 msg fs

def internalDebug (l : ZapInternalM) (msg : String) (fs : List Field) : Option Record :=
  l.engine.log (-1) msg fs

def internalWarn (l : ZapInternalM) (msg : String) (fs : List Field) : Option Record :=
  l.engine.log 1 msg fs

def internalError (l : ZapInternalM) (msg : String) (fs : List Field) : Option Record :=
  l.engine.log 2 msg fs

def internalInfoContext (l : ZapInternalM) (_ctx : CtxM) (msg : String)
    (fs : List Field) : Option Record :=
  internalInfo l msg fs

def internalDebugContext (l : ZapInternalM) (_ctx : CtxM) (msg : String)
    (fs : List Field) : Option Record :=
  internalDebug l msg fs

def internalWarnContext (l : ZapInternalM) (_ctx : CtxM) (msg : String)
    (fs : List Field) : Option Record :=
  internalWarn l msg fs

def internalErrorContext (l : ZapInternalM) (_ctx : CtxM) (msg : String)
    (fs : List Field) : Option Record :=
  internalError l msg fs

/-- Model of `zapLoggerInternal.SetLevel` (output.go lines 268-270): only the stored
level changes. -/
def internalSetLevel (l : ZapInternalM) (lvl : Int) : ZapInternalM :=
  { l with level := lvl }

/-! ## Traced wrapper (tracing.go lines 172-274) -/

/-- Model of `tracedLogger.mergeWithContextFields` (tracing.go lines 221-235):
context fields first, explicit fields second; when no context fields, the
explicit fields are returned as-is. -/
def tracedMergeWithContextFields (enabled : Bool) (ctx : CtxM) (fs : List Field) :
    List Field :=
  let contextFields := extractAllContextFields enabled ctx
  if contextFields.isEmpty then fs else contextFields ++ fs

/-! ## Logger configuration (types.go lines 108-154) -/

structure ConsoleOutputConfig where
  Enabled : Bool
deriving DecidableEq

structure FileOutputConfig where
  Enabled : Bool
  Path : String
  MaxSize : Int
  MaxBackups : Int
  MaxAge : Int
  Compress : Bool
deriving DecidableEq

structure RemoteOutputConfig where
  Enabled : Bool
  Endpoint : String
  Protocol : String
  BatchSize : Int
  Timeout : Int
  TLS : Bool
deriving DecidableEq

structure OutputConfig where
  Console : ConsoleOutputConfig
  File : FileOutputConfig
  Remote : RemoteOutputConfig
deriving DecidableEq

structure TracingConfig where
  Enabled : Bool
deriving DecidableEq

structure LoggerConfig where
  Level : Int
  Format : String
  ServiceName : String
  Version : String
  Environment : String
  Output : OutputConfig
  Tracing : TracingConfig
deriving DecidableEq

/-- Model of `DefaultLoggerConfig` (factory.go lines 23-37). -/
def DefaultLoggerConfigM : LoggerConfig :=
  { Level := 0
    Format := "console"
    ServiceName := "unknown-service"
    Version := "1.0.0"
    Environment := "development"
    Output :=
      { Console := { Enabled := true }
        File := { Enabled := false, Path := "", MaxSize := 0, MaxBackups := 0,
                  MaxAge := 0, Compress := false }
        Remote := { Enabled := false, Endpoint := "", Protocol := "", BatchSize := 0,
                    Timeout := 0, TLS := false } }
    Tracing := { Enabled := false } }

/-- Model of `LoggerFactory.mergeWithDefaults` (factory.go lines 106-143): non-zero
scalar fields of the input override the default; an output or tracing
section overrides only when its `Enabled` flag is set. -/
def mergeWithDefaults (dflt config : LoggerConfig) : LoggerConfig :=
  let r0 := dflt
  let r1 := if config.Level ≠ 0 then { r0 with Level := config.Level } else r0
  let r2 := if config.Format ≠ "" then { r1 with Format := config.Format } else r1
  let r3 := if config.ServiceName ≠ "" then { r2 with ServiceName := config.ServiceName } else r2
  let r4 := if config.Version ≠ "" then { r3 with Version := config.Version } else r3
  let r5 := if config.Environment ≠ "" then { r4 with Environment := config.Environment } else r4
  let r6 := if config.Output.Console.Enabled then
      { r5 with Output := { r5.Output with Console := config.Output.Console } } else r5
  let r7 := if config.Output.File.Enabled then
      { r6 with Output := { r6.Output with File := config.Output.File } } else r6
  let r8 := if config.Output.Remote.Enabled then
      { r7 with Output := { r7.Output with Remote := config.Output.Remote } } else r7
  if config.Tracing.Enabled then { r8 with Tracing := config.Tracing } else r8

/-- The config literal `CreateFileLogger` passes to `CreateLogger`
(factory.go lines 79-90): console explicitly disabled, file enabled at the
given path, everything else zero. -/
def createFileLoggerConfig (filePath : String) : LoggerConfig :=
  { Level := 0
    Format := ""
    ServiceName := ""
    Version := ""
    Environment := ""
    Output :=
      { Console := { Enabled := false }
        File := { Enabled := true, Path := filePath, MaxSize := 0, MaxBackups := 0,
                  MaxAge := 0, Compress := false }
        Remote := { Enabled := false, Endpoint := "", Protocol := "", BatchSize := 0,
                    Timeout := 0, TLS := false } }
    Tracing := { Enabled := false } }

/-! ## Output manager (output.go) -/

/-- Model of `zapcore.Encoder` choice made by `CreateZapEncoder`. -/
inductive EncoderM where
  | json
  | console
deriving DecidableEq

def CreateZapEncoderM (format : String) : EncoderM :=
  if format = "json" then EncoderM.json else EncoderM.console

structure InternalFileOutputConfigM where
  Filename : String
  MaxSizeMB : Int
  MaxBackups : Int
  MaxAgeDays : Int
  Compress : Bool
deriving DecidableEq

structure InternalRemoteOutputConfigM where
  RType : String
  Endpoint : String
  Protocol : String
  Timeout : Int
  TLS : Bool
  BatchSize : Int
deriving DecidableEq

/-- One `zapcore.Core` added to the output manager: a console core
(stdout) or a rotating-file core.  `AddRemoteOutput` never adds a core, so
no remote constructor exists. -/
inductive SinkM where
  | consoleSink (level : Int) (enc : EncoderM)
  | fileSink (cfg : InternalFileOutputConfigM) (level : Int) (enc : EncoderM)
deriving DecidableEq

structure OutputManagerM where
  cores : List SinkM
deriving DecidableEq

def addConsoleOutputM (om : OutputManagerM) (level : Int) (enc : EncoderM) :
    OutputManagerM :=
  { om with cores := om.cores ++ [SinkM.consoleSink level enc] }

/-- Model of `AddFileOutput` (output.go lines 40-64): `os.MkdirAll` may fail (the
filesystem outcome is the `mkdirOk` parameter); on success a lumberjack
file core is appended. -/
def addFileOutputM (mkdirOk : Bool) (om : OutputManagerM)
    (cfg : InternalFileOutputConfigM) (level : Int) (enc : EncoderM) :
    Except String OutputManagerM :=
  if mkdirOk then
    Except.ok { om with cores := om.cores ++ [SinkM.fileSink cfg level enc] }
  else Except.error "failed to create log directory"

/-- Model of `AddRemoteOutput` (output.go lines 67-75): reserved extension point,
fails without touching the core list. -/
def addRemoteOutputM (om : OutputManagerM) (_cfg : InternalRemoteOutputConfigM)
    (_level : Int) (_enc : EncoderM) : OutputManagerM × Option String :=
  (om, some "remote output not implemented yet")

/-- Model of `CreateTeeCore` (output.go lines 78-94): zero cores → default console
core at Info; one core → that core; several → a tee over all of them. -/
inductive CoreM where
  | single (s : SinkM)
  | tee (ss : List SinkM)
deriving DecidableEq

def createTeeCoreM (om : OutputManagerM) : CoreM :=
  match om.cores with
  | [] => CoreM.single (SinkM.consoleSink 0 (CreateZapEncoderM "console"))
  | [c] => CoreM.single c
  | cs => CoreM.tee cs

def shouldAddConsoleOutput (config : LoggerConfig) : Bool :=
  if config.Format = "console" || config.Format = "" then true
  else config.Output.Console.Enabled

def shouldAddFileOutput (config : LoggerConfig) : Bool :=
  config.Output.File.Enabled && config.Output.File.Path ≠ ""

def shouldAddRemoteOutput (config : LoggerConfig) : Bool :=
  config.Output.Remote.Enabled && config.Output.Remote.Endpoint ≠ ""

def createFileOutputConfigM (config : LoggerConfig) : InternalFileOutputConfigM :=
  { Filename := config.Output.File.Path
    MaxSizeMB := config.Output.File.MaxSize
    MaxBackups := config.Output.File.MaxBackups
    MaxAgeDays := config.Output.File.MaxAge
    Compress := config.Output.File.Compress }

def createRemoteOutputConfigM (config : LoggerConfig) : InternalRemoteOutputConfigM :=
  { RType := config.Output.Remote.Protocol
    Endpoint := config.Output.Remote.Endpoint
    Protocol := config.Output.Remote.Protocol
    Timeout := config.Output.Remote.Timeout
    TLS := config.Output.Remote.TLS
    BatchSize := config.Output.Remote.BatchSize }

/-- The logger value `CreateLoggerWithOutputs` builds on success. -/
structure MultiOutLoggerM where
  core : CoreM
  level : Int
  service : String
  baseFields : List Field
deriving DecidableEq

/-- Model of `CreateLoggerWithOutputs` (output.go lines 116-180).  Returns the
construction result plus the warnings written to stderr.  A file-output
failure aborts construction; a remote-output failure is demoted to a
warning and construction continues with the remaining cores. -/
def createLoggerWithOutputsM (mkdirOk : Bool) (config : LoggerConfig) :
    Except String MultiOutLoggerM × List String :=
  let om0 : OutputManagerM := { cores := [] }
  let level := levelToZapLevel config.Level
  let om1 :=
    if shouldAddConsoleOutput config then
      addConsoleOutputM om0 level (CreateZapEncoderM config.Format)
    else om0
  let fileStep :=
    if shouldAddFileOutput config then
      addFileOutputM mkdirOk om1 (createFileOutputConfigM config) level
        (CreateZapEncoderM "json")
    else Except.ok om1
  match fileStep with
  | Except.error e => (Except.error ("failed to add file output: " ++ e), [])
  | Except.ok om2 =>
    let remoteStep :=
      if shouldAddRemoteOutput config then
        addRemoteOutputM om2 (createRemoteOutputConfigM config) level
          (CreateZapEncoderM "json")
      else (om2, none)
    let warnings :=
      match remoteStep.2 with
      | some e => ["Warning: failed to add remote output: " ++ e ++ "\n"]
      | none => []
    let ident : ServiceIdent :=
      { serviceName := config.ServiceName, version := config.Version,
        environment := config.Environment }
    (Except.ok
       { core := createTeeCoreM remoteStep.1
         level := config.Level
         service := config.ServiceName
         baseFields := baseFieldsOf ident }, warnings)

/-- The given `config` with the remote output section disabled. -/
def disableRemote (config : LoggerConfig) : LoggerConfig :=
  { config with
    Output := { config.Output with
      Remote := { config.Output.Remote with Enabled := false } } }

/-! ## Global registry (global.go) -/

/-- The process-wide global-logger slot plus the `sync.Once` guard state. -/
structure GlobalState (α : Type) where
  slot : Option α
  initDone : Bool

/-- Model of `SetGlobalLogger` (global.go lines 36-46): syncs the previous logger
(a side effect outside the slot) and stores the new value — which the
restore closure of `ReplaceGlobalLogger` may legitimately pass as `none`. -/
def setGlobalLoggerM {α : Type} (s : GlobalState α) (lg : Option α) : GlobalState α :=
  { s with slot := lg }

/-- Model of `ReplaceGlobalLogger` (global.go lines 49-60): swap in the new logger
and return the restore closure, which re-installs the captured old value
via `SetGlobalLogger`. -/
def replaceGlobalLoggerM {α : Type} (s : GlobalState α) (lg : α) :
    GlobalState α × (GlobalState α → GlobalState α) :=
  ({ s with slot := some lg }, fun s2 => setGlobalLoggerM s2 s.slot)

/-- Model of `GetGlobalLogger` (global.go lines 18-33): return the slot when filled;
otherwise run `initDefaultGlobalLogger` under the `sync.Once` guard (its
result `dflt` — the env-built logger, or the fallback — is passed in) and
return the slot afterwards. -/
def getGlobalLoggerM {α : Type} (dflt : α) (s : GlobalState α) :
    Option α × GlobalState α :=
  match s.slot with
  | some l => (some l, s)
  | none =>
    if s.initDone then (s.slot, s)
    else (some dflt, { slot := some dflt, initDone := true })

/-! ## Fallback logger (global.go lines 228-250)

For the lazy-initialization claim about the registry the logger values themselves
matter, so the registry is instantiated at a value type with the fallback
logger and the env-built core logger as inhabitants. -/

inductive LoggerV9 where
  | fallback
  | zapL (l : ZapLoggerM)
deriving DecidableEq

/-- Choice made by `initDefaultGlobalLogger` (global.go lines 63-73): the logger
`NewLoggerFromEnv` built, or `&fallbackLogger{}` when that failed. -/
def initDefaultResult (env : Option ZapLoggerM) : LoggerV9 :=
  match env with
  | some l => LoggerV9.zapL l
  | none => LoggerV9.fallback

def LoggerV9.debugRecs : LoggerV9 → String → List Field → List Record
  | LoggerV9.fallback, _, _ => []
  | LoggerV9.zapL l, msg, fs => (zapLoggerDebug l msg fs).toList

def LoggerV9.infoRecs : LoggerV9 → String → List Field → List Record
  | LoggerV9.fallback, _, _ => []
  | LoggerV9.zapL l, msg, fs => (zapLoggerInfo l msg fs).toList

def LoggerV9.warnRecs : LoggerV9 → String → List Field → List Record
  | LoggerV9.fallback, _, _ => []
  | LoggerV9.zapL l, msg, fs => (zapLoggerWarn l msg fs).toList

def LoggerV9.errorRecs : LoggerV9 → String → String → List Field → List Record
  | LoggerV9.fallback, _, _, _ => []
  | LoggerV9.zapL l, stk, msg, fs => (zapLoggerError l stk msg fs).toList

/-- Model of `Fatal`: it writes the record and then exits the process; the embedding
keeps the written records. -/
def LoggerV9.fatalRecs : LoggerV9 → String → String → List Field → List Record
  | LoggerV9.fallback, _, _, _ => []
  | LoggerV9.zapL l, stk, msg, fs =>
    (l.engine.log 5 msg (enhanceFields (fs ++ [⟨"stack_trace", FieldVal.str stk⟩]))).toList

def LoggerV9.debugCtxRecs : LoggerV9 → CtxM → String → List Field → List Record
  | LoggerV9.fallback, _, _, _ => []
  | LoggerV9.zapL l, ctx, msg, fs => (zapLoggerDebugContext l ctx msg fs).toList

def LoggerV9.infoCtxRecs : LoggerV9 → CtxM → String → List Field → List Record
  | LoggerV9.fallback, _, _, _ => []
  | LoggerV9.zapL l, ctx, msg, fs => (zapLoggerInfoContext l ctx msg fs).toList

def LoggerV9.warnCtxRecs : LoggerV9 → CtxM → String → List Field → List Record
  | LoggerV9.fallback, _, _, _ => []
  | LoggerV9.zapL l, ctx, msg, fs => (zapLoggerWarnContext l ctx msg fs).toList

def LoggerV9.errorCtxRecs : LoggerV9 → String → CtxM → String → List Field → List Record
  | LoggerV9.fallback, _, _, _, _ => []
  | LoggerV9.zapL l, stk, ctx, msg, fs => (zapLoggerErrorContext l stk ctx msg fs).toList

def LoggerV9.withFieldsM : LoggerV9 → List Field → LoggerV9
  | LoggerV9.fallback, _ => LoggerV9.fallback
  | LoggerV9.zapL l, fs => LoggerV9.zapL (zapLoggerWithFields l fs)

def LoggerV9.withServiceM : LoggerV9 → String → LoggerV9
  | LoggerV9.fallback, _ => LoggerV9.fallback
  | LoggerV9.zapL l, sv => LoggerV9.zapL (zapLoggerWithService l sv)

def LoggerV9.withContextM : LoggerV9 → CtxM → LoggerV9
  | LoggerV9.fallback, _ => LoggerV9.fallback
  | LoggerV9.zapL l, ctx => LoggerV9.zapL (zapLoggerWithContext l ctx)

/-- Model of `Sync() error`.  The fallback logger returns `nil` (`none`); the core
logger delegates to `zap.Sync`, whose runtime outcome the claims here never
depend on — modelled as `none` as well. -/
def LoggerV9.syncRes : LoggerV9 → Option String
  | LoggerV9.fallback => none
  | LoggerV9.zapL _ => none

/-! ## Connect RPC logging interceptor (middleware.go) -/

structure MiddlewareConfigM where
  LogRequests : Bool
  LogResponses : Bool
  LogHeaders : Bool
  SensitiveFields : List String
  MaxBodySize : Int
  SlowThreshold : Int
deriving DecidableEq

/-- The default-filling step of `NewConnectLoggingInterceptor`
(middleware.go lines 33-46): body cap 4096 bytes and slow threshold
1000 ms when unset (≤ 0). -/
def newConnectLoggingInterceptorConfig (c : MiddlewareConfigM) : MiddlewareConfigM :=
  let c1 := if c.MaxBodySize ≤ 0 then { c with MaxBodySize := 4096 } else c
  if c1.SlowThreshold ≤ 0 then { c1 with SlowThreshold := 1000 } else c1

/-- The fixed list `commonSensitive` of `isSensitiveField`
(middleware.go lines 256-260). -/
def commonSensitiveHeaders : List String :=
  ["authorization", "cookie", "x-api-key", "x-auth-token",
   "authentication", "x-access-token", "bearer", "password"]

/-- Model of `ConnectLoggingInterceptor.isSensitiveField` (middleware.go
lines 246-269). -/
def interceptorIsSensitiveField (c : MiddlewareConfigM) (name : String) : Bool :=
  let lowerField := toLowerAscii name
  c.SensitiveFields.any (fun s => toLowerAscii s = lowerField) ||
  commonSensitiveHeaders.any
    (fun s => lowerField = s || containsSubstr s.data lowerField.data)

def redactHeaders (c : MiddlewareConfigM) (hs : List (String × String)) :
    List (String × String) :=
  hs.map (fun kv =>
    if interceptorIsSensitiveField c kv.1 then (kv.1, "[REDACTED]") else kv)

/-- Model of `extractResponseFields` (middleware.go lines 219-243): redacted headers
(when enabled and present) under key `response_headers`, plus the response
type under `response_type`. -/
def extractResponseFieldsM (c : MiddlewareConfigM) (headers : List (String × String))
    (respType : Option String) : List Field :=
  (if c.LogHeaders && !headers.isEmpty then
     [⟨"response_headers", FieldVal.anyMap (redactHeaders c headers)⟩]
   else []) ++
  (match respType with
   | some t => [⟨"response_type", FieldVal.str t⟩]
   | none => [])

/-- The `responseFields` list of `WrapUnary` (middleware.go lines 77-87):
procedure, duration, duration in ms, then (optionally) the extracted
response fields. -/
def buildResponseFields (procedure : String) (durMs : Int) (extra : List Field) :
    List Field :=
  [⟨"procedure", FieldVal.str procedure⟩,
   ⟨"duration", FieldVal.dur durMs⟩,
   ⟨"duration_ms", FieldVal.int durMs⟩] ++ extra

/-- The success branch of the `WrapUnary` completion logging (middleware.go
lines 106-124): the level name chosen for the `WarnContext` / `InfoContext`
dispatch, the message, and the emitted field list. -/
def unarySuccessLog (c : MiddlewareConfigM) (durMs : Int)
    (responseFields : List Field) : String × String × List Field :=
  let successFields := responseFields ++ [⟨"status", FieldVal.str "success"⟩]
  if durMs > c.SlowThreshold then
    ("warn", "RPC request completed (slow)",
     successFields ++ [⟨"slow_request", FieldVal.bool true⟩])
  else
    ("info", "RPC request completed", successFields)

/-! ## Concrete test inputs used by witnesses and counterexamples -/

/-- An input whose masked form still matches the credit-card pattern: the
first pass rewrites the leading sixteen digits to `1111-****-****-3456`, and
the kept tail `3456` together with the following `-1111 2222 3333` forms a
fresh sixteen-digit match for a second application. -/
def seamInput : String := "1111 2222 3333 3456-1111 2222 3333"

/-- A context carrying only a request id `"req-123"`. -/
def ctxReq123 : CtxM := { vals := [("request_id", GoVal.str "req-123")], span := none }

/-- Core logger at Info threshold with no base fields
(`NewLogger` on an empty service identity). -/
def zlogPlain : ZapLoggerM := newLoggerModel 0 ⟨"", "", ""⟩

/-- Multi-output wrapper logger at Info threshold with no base fields. -/
def internalPlain : ZapInternalM :=
  { engine := { threshold := 0, ctxFields := [] }, level := 0, service := "",
    baseFields := [] }

/-- Interceptor config with unset (zero) body cap and slow threshold. -/
def slowWitnessConfig : MiddlewareConfigM :=
  { LogRequests := true, LogResponses := true, LogHeaders := false,
    SensitiveFields := [], MaxBodySize := 0, SlowThreshold := 0 }

/-- A logger config whose only enabled output is a remote sink. -/
def remoteOnlyConfig : LoggerConfig :=
  { Level := 0
    Format := "json"
    ServiceName := "svc"
    Version := ""
    Environment := ""
    Output :=
      { Console := { Enabled := true }
        File := { Enabled := false, Path := "", MaxSize := 0, MaxBackups := 0,
                  MaxAge := 0, Compress := false }
        Remote := { Enabled := true, Endpoint := "http://collector:4317",
                    Protocol := "http", BatchSize := 10, Timeout := 1000,
                    TLS := false } }
    Tracing := { Enabled := false } }

/-! ## Helper lemmas -/

/-- A `ReplaceAllString` pass is the identity when its pattern matches
nowhere in the text. -/
theorem goScan_eq_of_no_match (m : Matcher) :
    ∀ (s : List Char) (fuel : Nat) (w : Bool),
      hasMatchGo m w s = false → goScan m fuel w s = s := by
  intro s
  induction s with
  | nil => intro fuel w _; cases fuel <;> rfl
  | cons c rest ih =>
    intro fuel w h
    cases fuel with
    | zero => rfl
    | succ n =>
      rw [hasMatchGo] at h
      cases hm : m w (c :: rest) with
      | some v => rw [hm] at h; simp at h
      | none =>
        rw [hm] at h
        simp only [Option.isSome_none, Bool.false_or] at h
        rw [goScan, hm]
        rw [ih n (isWordChar c) h]

theorem goReplaceAll_eq_of_no_match (m : Matcher) (s : List Char)
    (h : hasMatchGo m false s = false) : goReplaceAll m s = s :=
  goScan_eq_of_no_match m s s.length false h

/-! ## Claims -/

/-- C1.  For every custom sensitive set and field list, `SanitizeFields`
maps each field with a sensitive key (per `isSensitiveField`, which
lowercases the key and checks the custom set and the eight built-in
patterns) to the same key with value `"[REDACTED]"`, and returns every
other field unchanged — length and order preserved. -/
theorem sanitizeFields_redacts_sensitive_and_preserves_rest :
    ∀ (custom : List String) (fields : List Field),
      SanitizeFields custom fields =
        fields.map (fun f =>
          if isSensitiveField custom f.key then ⟨f.key, FieldVal.str "[REDACTED]"⟩
          else f)
      ∧ (SanitizeFields custom fields).length = fields.length := by
  intro custom fields
  have hmap : SanitizeFields custom fields =
      fields.map (fun f =>
        if isSensitiveField custom f.key then ⟨f.key, FieldVal.str "[REDACTED]"⟩
        else f) := by
    induction fields with
    | nil => rfl
    | cons f rest ih =>
      by_cases h : isSensitiveField custom f.key <;>
        simp [SanitizeFields, h, ih]
  exact ⟨hmap, by rw [hmap]; simp⟩

/-- C2 counterexample.  `sanitizeString` is not idempotent: on `seamInput`
the credit-card replacement of the first application keeps the digits `3456`,
which together with the following `-1111 2222 3333` form a fresh
credit-card match, so a second application masks further. -/
theorem sanitizeString_twice_differs_on_seam_input :
    sanitizeString (sanitizeString seamInput) ≠ sanitizeString seamInput := by
  decide

/-- C2 amended.  `sanitizeString` is idempotent on every input whose
sanitized form contains no further occurrence of any of the five
replacement patterns; on such inputs (`sanitizeApplicable` of the output is
`false`) each pass of the second application is the identity. -/
theorem sanitizeString_idempotent_when_output_matchfree :
    ∀ s : String, sanitizeApplicable (sanitizeString s) = false →
      sanitizeString (sanitizeString s) = sanitizeString s := by
  intro s h
  unfold sanitizeApplicable at h
  simp only [Bool.or_eq_false_iff] at h
  obtain ⟨⟨⟨⟨⟨h1, h2⟩, h3⟩, h4⟩, h5⟩, h6⟩ := h
  have key : sanitizeChars ((sanitizeString s).data) = (sanitizeString s).data := by
    unfold sanitizeChars
    rw [goReplaceAll_eq_of_no_match ccMatch _ h1,
        goReplaceAll_eq_of_no_match id17Match _ h2,
        goReplaceAll_eq_of_no_match id16Match _ h3,
        goReplaceAll_eq_of_no_match emailMatch _ h4,
        goReplaceAll_eq_of_no_match phoneMatch _ h5,
        goReplaceAll_eq_of_no_match tokenMatch _ h6]
  have expand : sanitizeString (sanitizeString s) =
      String.mk (sanitizeChars ((sanitizeString s).data)) := rfl
  rw [expand, key]

/-- C2 witness: `"hello"` sanitizes to itself and its output is match-free,
so the amended idempotency applies. -/
theorem sanitizeString_idem_witness :
    sanitizeApplicable (sanitizeString "hello") = false ∧
      sanitizeString (sanitizeString "hello") = sanitizeString "hello" :=
  ⟨by decide, sanitizeString_idempotent_when_output_matchfree "hello" (by decide)⟩

/-- C6.  `ParseLevel (LevelString l) = l` for the five defined levels, and
`ParseLevel` maps every other string to `InfoLevel` (0), never failing. -/
theorem parseLevel_roundtrip_and_default :
    ∀ (l : Int) (s : String),
      ((l = -1 ∨ l = 0 ∨ l = 1 ∨ l = 2 ∨ l = 3) → ParseLevel (LevelString l) = l)
      ∧ ((s ≠ "debug" ∧ s ≠ "info" ∧ s ≠ "warn" ∧ s ≠ "error" ∧ s ≠ "fatal") →
          ParseLevel s = 0) := by
  intro l s
  constructor
  · rintro (rfl | rfl | rfl | rfl | rfl) <;> decide
  · rintro ⟨h1, h2, h3, h4, h5⟩
    simp [ParseLevel, h1, h2, h3, h4, h5]

/-- C6 witness: round-trip at Warn and default at an unrecognized name. -/
theorem parseLevel_roundtrip_witness :
    ParseLevel (LevelString 1) = 1 ∧ ParseLevel "bogus" = 0 :=
  ⟨(parseLevel_roundtrip_and_default 1 "bogus").1 (Or.inr (Or.inr (Or.inl rfl))),
   (parseLevel_roundtrip_and_default 1 "bogus").2 (by decide)⟩

/-- C3 counterexample.  The claim quantifies over every logger, but the
`InfoContext` of the multi-output `zapLoggerInternal` discards the context: on a
context carrying request id `"req-123"` it emits a record with no
`request_id` field at all. -/
theorem internal_infoContext_drops_request_id :
    internalInfoContext internalPlain ctxReq123 "m" [] =
      some ⟨0, "m", ([] : List Field)⟩
    ∧ ¬ ((⟨"request_id", FieldVal.str "req-123"⟩ : Field) ∈
          (⟨0, "m", ([] : List Field)⟩ : Record).fields) := by
  decide

/-- C3 amended.  The `*Context` methods of the core `zapLogger` emit the
context-extracted fields before the explicit fields without deduplication
(`Error` additionally appends the stack-trace field), and the traced
wrapper merge step likewise puts context fields first; in particular, on a
context carrying request id `"req-123"` (tracing disabled — the core
extractor never consults tracing) `InfoContext` emits a record containing
`request_id = "req-123"`.  The `*Context` methods of the multi-output `zapLoggerInternal`, however, ignore the context entirely. -/
theorem contextCalls_prepend_context_fields :
    ∀ (l : ZapLoggerM) (li : ZapInternalM) (ctx ctx2 : CtxM) (msg stk : String)
      (fs : List Field) (enabled : Bool),
      (l.engine.threshold ≤ -1 →
        zapLoggerDebugContext l ctx msg fs =
          some ⟨-1, msg, l.engine.ctxFields ++ (extractContextFields ctx ++ fs)⟩)
      ∧ (l.engine.threshold ≤ 0 →
        zapLoggerInfoContext l ctx msg fs =
          some ⟨0, msg, l.engine.ctxFields ++ (extractContextFields ctx ++ fs)⟩)
      ∧ (l.engine.threshold ≤ 1 →
        zapLoggerWarnContext l ctx msg fs =
          some ⟨1, msg, l.engine.ctxFields ++ (extractContextFields ctx ++ fs)⟩)
      ∧ (l.engine.threshold ≤ 2 →
        zapLoggerErrorContext l stk ctx msg fs =
          some ⟨2, msg, l.engine.ctxFields ++
            ((extractContextFields ctx ++ fs) ++ [⟨"stack_trace", FieldVal.str stk⟩])⟩)
      ∧ tracedMergeWithContextFields enabled ctx fs =
          extractAllContextFields enabled ctx ++ fs
      ∧ zapLoggerInfoContext zlogPlain ctxReq123 msg fs =
          some ⟨0, msg, (⟨"request_id", FieldVal.str "req-123"⟩ : Field) :: fs⟩
      ∧ internalInfoContext li ctx msg fs = internalInfoContext li ctx2 msg fs := by
  intro l li ctx ctx2 msg stk fs enabled
  refine ⟨?_, ?_, ?_, ?_, ?_, ?_, rfl⟩
  · intro h
    simp [zapLoggerDebugContext, zapLoggerDebug, ZapEngine.log, enhanceFields, h]
  · intro h
    simp [zapLoggerInfoContext, zapLoggerInfo, ZapEngine.log, enhanceFields, h]
  · intro h
    simp [zapLoggerWarnContext, zapLoggerWarn, ZapEngine.log, enhanceFields, h]
  · intro h
    simp [zapLoggerErrorContext, zapLoggerError, ZapEngine.log, enhanceFields, h]
  · cases hc : extractAllContextFields enabled ctx <;>
      simp [tracedMergeWithContextFields, hc]
  · rfl

/-- C3 witness: the Info conjunct at the plain core logger and the
request-id context. -/
theorem contextCalls_prepend_witness :
    zapLoggerInfoContext zlogPlain ctxReq123 "started" [⟨"port", FieldVal.int 8080⟩] =
      some ⟨0, "started",
        (⟨"request_id", FieldVal.str "req-123"⟩ : Field) ::
          [⟨"port", FieldVal.int 8080⟩]⟩ :=
  (contextCalls_prepend_context_fields zlogPlain internalPlain ctxReq123 ctxReq123
    "started" "" [⟨"port", FieldVal.int 8080⟩] false).2.2.2.2.2.1

/-- C4.  Code evaluated at the failing input: a logger built at Warn,
`SetLevel(Debug)`, then a `Debug` call.  The stored level becomes Debug,
but `zap.IncreaseLevel` cannot lower the core threshold (it stays at Warn),
so the Debug record — which the claim says must now be emitted — is
suppressed. -/
theorem setLevel_cannot_lower_threshold :
    (zapLoggerSetLevel (newLoggerModel 1 ⟨"", "", ""⟩) (-1)).level = -1
    ∧ (zapLoggerSetLevel (newLoggerModel 1 ⟨"", "", ""⟩) (-1)).engine.threshold = 1
    ∧ zapLoggerDebug (zapLoggerSetLevel (newLoggerModel 1 ⟨"", "", ""⟩) (-1)) "m" [] =
        none := by
  decide

/-- C5.  When the global slot currently holds `old`, `ReplaceGlobalLogger`
followed by its restore function makes `GetGlobalLogger` return exactly
`old` again, for any replacement logger and any lazy default. -/
theorem replace_restore_roundtrip :
    ∀ (α : Type) (s : GlobalState α) (old lgNew dflt : α),
      s.slot = some old →
      (getGlobalLoggerM dflt
        ((replaceGlobalLoggerM s lgNew).2 (replaceGlobalLoggerM s lgNew).1)).1 =
        some old := by
  intro α s old lgNew dflt h
  simp [replaceGlobalLoggerM, setGlobalLoggerM, getGlobalLoggerM, h]

/-- C5 witness at a concrete registry state over `Nat` logger values. -/
theorem replace_restore_roundtrip_witness :
    (getGlobalLoggerM 0
      ((replaceGlobalLoggerM (⟨some 7, true⟩ : GlobalState Nat) 9).2
        (replaceGlobalLoggerM (⟨some 7, true⟩ : GlobalState Nat) 9).1)).1 = some 7 :=
  replace_restore_roundtrip Nat ⟨some 7, true⟩ 7 9 0 rfl

/-- C7.  After the interceptor default-filling step (slow threshold 1000
when unset), a successfully completed unary call whose duration strictly
exceeds the threshold is logged at Warn with `slow_request = true`;
otherwise at Info, and no `slow_request` field occurs in the record. -/
theorem slow_threshold_warn_marker :
    ∀ (c0 : MiddlewareConfigM) (durMs : Int) (procedure : String)
      (headers : List (String × String)) (respType : Option String),
      (c0.SlowThreshold ≤ 0 →
        (newConnectLoggingInterceptorConfig c0).SlowThreshold = 1000)
      ∧ (durMs > (newConnectLoggingInterceptorConfig c0).SlowThreshold →
          (unarySuccessLog (newConnectLoggingInterceptorConfig c0) durMs
            (buildResponseFields procedure durMs
              (extractResponseFieldsM (newConnectLoggingInterceptorConfig c0)
                headers respType))).1 = "warn"
          ∧ (⟨"slow_request", FieldVal.bool true⟩ : Field) ∈
              (unarySuccessLog (newConnectLoggingInterceptorConfig c0) durMs
                (buildResponseFields procedure durMs
                  (extractResponseFieldsM (newConnectLoggingInterceptorConfig c0)
                    headers respType))).2.2)
      ∧ (durMs ≤ (newConnectLoggingInterceptorConfig c0).SlowThreshold →
          (unarySuccessLog (newConnectLoggingInterceptorConfig c0) durMs
            (buildResponseFields procedure durMs
              (extractResponseFieldsM (newConnectLoggingInterceptorConfig c0)
                headers respType))).1 = "info"
          ∧ ∀ v, ¬ ((⟨"slow_request", v⟩ : Field) ∈
              (unarySuccessLog (newConnectLoggingInterceptorConfig c0) durMs
                (buildResponseFields procedure durMs
                  (extractResponseFieldsM (newConnectLoggingInterceptorConfig c0)
                    headers respType))).2.2)) := by
  intro c0 durMs procedure headers respType
  refine ⟨?_, ?_, ?_⟩
  · intro h
    simp only [newConnectLoggingInterceptorConfig]
    split_ifs <;> simp_all
  · intro h
    constructor
    · simp [unarySuccessLog, h]
    · simp [unarySuccessLog, h]
  · intro h
    have hn : ¬ durMs > (newConnectLoggingInterceptorConfig c0).SlowThreshold :=
      not_lt.mpr h
    constructor
    · simp [unarySuccessLog, hn]
    · intro v hv
      simp only [unarySuccessLog, hn, if_false] at hv
      by_cases hh :
          ((newConnectLoggingInterceptorConfig c0).LogHeaders && !headers.isEmpty) = true <;>
        rcases respType with _ | t <;>
        simp [buildResponseFields, extractResponseFieldsM, hh, Field.mk.injEq] at hv

/-- C7 witness: unset slow threshold defaults to 1000 and a 1500 ms call is
logged at Warn. -/
theorem slow_threshold_warn_marker_witness :
    (newConnectLoggingInterceptorConfig slowWitnessConfig).SlowThreshold = 1000
    ∧ (unarySuccessLog (newConnectLoggingInterceptorConfig slowWitnessConfig) 1500
        (buildResponseFields "/user.v1.UserService/GetUser" 1500
          (extractResponseFieldsM (newConnectLoggingInterceptorConfig slowWitnessConfig)
            [] none))).1 = "warn" :=
  ⟨(slow_threshold_warn_marker slowWitnessConfig 1500 "/user.v1.UserService/GetUser"
      [] none).1 (by decide),
   ((slow_threshold_warn_marker slowWitnessConfig 1500 "/user.v1.UserService/GetUser"
      [] none).2.1 (by decide)).1⟩

/-- C8.  `AddRemoteOutput` fails with the not-implemented error without
appending any core; `CreateLoggerWithOutputs` builds the same logger as if
the remote section were disabled, and when a remote output is requested
(and the file step does not independently fail) it still succeeds, emitting
exactly the stderr warning. -/
theorem remote_output_nonfatal :
    ∀ (om : OutputManagerM) (rcfg : InternalRemoteOutputConfigM) (lvl : Int)
      (enc : EncoderM) (config : LoggerConfig) (mkdirOk : Bool),
      (addRemoteOutputM om rcfg lvl enc).1.cores = om.cores
      ∧ (addRemoteOutputM om rcfg lvl enc).2 = some "remote output not implemented yet"
      ∧ (createLoggerWithOutputsM mkdirOk config).1 =
          (createLoggerWithOutputsM mkdirOk (disableRemote config)).1
      ∧ (shouldAddRemoteOutput config = true →
          (shouldAddFileOutput config = false ∨ mkdirOk = true) →
          ((createLoggerWithOutputsM mkdirOk config).1.toOption.isSome = true
          ∧ (createLoggerWithOutputsM mkdirOk config).2 =
              ["Warning: failed to add remote output: remote output not implemented yet\n"])) := by
  intro om rcfg lvl enc config mkdirOk
  have hc : shouldAddConsoleOutput (disableRemote config) = shouldAddConsoleOutput config := rfl
  have hf : shouldAddFileOutput (disableRemote config) = shouldAddFileOutput config := rfl
  have hfc : createFileOutputConfigM (disableRemote config) = createFileOutputConfigM config := rfl
  have hr : shouldAddRemoteOutput (disableRemote config) = false := by
    simp [shouldAddRemoteOutput, disableRemote]
  refine ⟨rfl, rfl, ?_, ?_⟩
  · have hl : (disableRemote config).Level = config.Level := rfl
    have hfm : (disableRemote config).Format = config.Format := rfl
    have hsn : (disableRemote config).ServiceName = config.ServiceName := rfl
    have hver : (disableRemote config).Version = config.Version := rfl
    have henv : (disableRemote config).Environment = config.Environment := rfl
    by_cases hrem : shouldAddRemoteOutput config = true <;>
      by_cases hfo : shouldAddFileOutput config = true <;>
      by_cases hmk : mkdirOk = true <;>
      simp only [createLoggerWithOutputsM, hc, hf, hfc, hr, hrem, hfo, hmk,
        hl, hfm, hsn, hver, henv, if_true, if_false, Bool.false_eq_true,
        addRemoteOutputM, addFileOutputM]
  · intro hrem hfile
    rcases hfile with hf0 | hmk
    · simp [createLoggerWithOutputsM, hf0, hrem, addRemoteOutputM, Except.toOption]
    · by_cases hf1 : shouldAddFileOutput config = true
      · simp [createLoggerWithOutputsM, hf1, hmk, addFileOutputM, hrem,
          addRemoteOutputM, Except.toOption]
      · simp [createLoggerWithOutputsM, hf1, hrem, addRemoteOutputM, Except.toOption]

/-- C8 witness: a config requesting a remote sink builds successfully with
the single warning. -/
theorem remote_output_nonfatal_witness :
    (createLoggerWithOutputsM true remoteOnlyConfig).1.toOption.isSome = true
    ∧ (createLoggerWithOutputsM true remoteOnlyConfig).2 =
        ["Warning: failed to add remote output: remote output not implemented yet\n"] :=
  (remote_output_nonfatal { cores := [] }
      (createRemoteOutputConfigM remoteOnlyConfig) 0 EncoderM.json remoteOnlyConfig
      true).2.2.2 (by decide) (Or.inr rfl)

/-- C9.  On the lazy-initialization path `GetGlobalLogger` never returns
nil: from a fresh registry it installs and returns the `initDefaultGlobalLogger`
result — the fallback logger when environment construction failed — and the
logging methods of the fallback logger emit nothing, its `Sync` returns nil, and
its `WithFields`/`WithService`/`WithContext` return the same fallback
instance. -/
theorem global_lazy_fallback_never_nil :
    ∀ (env : Option ZapLoggerM) (msg stk sv : String) (fs : List Field) (ctx : CtxM),
      (getGlobalLoggerM (initDefaultResult env)
        (⟨none, false⟩ : GlobalState LoggerV9)).1.isSome = true
      ∧ (getGlobalLoggerM (initDefaultResult none)
          (⟨none, false⟩ : GlobalState LoggerV9)).1 = some LoggerV9.fallback
      ∧ (getGlobalLoggerM (initDefaultResult none)
          (⟨none, false⟩ : GlobalState LoggerV9)).2.slot = some LoggerV9.fallback
      ∧ LoggerV9.debugRecs LoggerV9.fallback msg fs = []
      ∧ LoggerV9.infoRecs LoggerV9.fallback msg fs = []
      ∧ LoggerV9.warnRecs LoggerV9.fallback msg fs = []
      ∧ LoggerV9.errorRecs LoggerV9.fallback stk msg fs = []
      ∧ LoggerV9.fatalRecs LoggerV9.fallback stk msg fs = []
      ∧ LoggerV9.debugCtxRecs LoggerV9.fallback ctx msg fs = []
      ∧ LoggerV9.infoCtxRecs LoggerV9.fallback ctx msg fs = []
      ∧ LoggerV9.warnCtxRecs LoggerV9.fallback ctx msg fs = []
      ∧ LoggerV9.errorCtxRecs LoggerV9.fallback stk ctx msg fs = []
      ∧ LoggerV9.syncRes LoggerV9.fallback = none
      ∧ LoggerV9.withFieldsM LoggerV9.fallback fs = LoggerV9.fallback
      ∧ LoggerV9.withServiceM LoggerV9.fallback sv = LoggerV9.fallback
      ∧ LoggerV9.withContextM LoggerV9.fallback ctx = LoggerV9.fallback := by
  intro env msg stk sv fs ctx
  exact ⟨rfl, rfl, rfl, rfl, rfl, rfl, rfl, rfl, rfl, rfl, rfl, rfl, rfl, rfl, rfl, rfl⟩

/-- C10.  The factory merge step copies an output section from the input
only when the `Enabled` flag of that section is set, so an input with console
disabled cannot override the default (console enabled): every merged
configuration — including the one `CreateFileLogger` produces — has console
output enabled. -/
theorem merged_config_console_always_enabled :
    ∀ (config : LoggerConfig) (path : String),
      (mergeWithDefaults DefaultLoggerConfigM config).Output.Console.Enabled = true
      ∧ (mergeWithDefaults DefaultLoggerConfigM
          (createFileLoggerConfig path)).Output.Console.Enabled = true := by
  have h1 : ∀ config : LoggerConfig,
      (mergeWithDefaults DefaultLoggerConfigM config).Output.Console.Enabled = true := by
    intro config
    by_cases hc : config.Output.Console.Enabled = true <;>
      simp [mergeWithDefaults, DefaultLoggerConfigM, hc,
        apply_ite (fun c : LoggerConfig => c.Output.Console.Enabled)]
  intro config path
  exact ⟨h1 config, h1 (createFileLoggerConfig path)⟩

end MicroTemp
